import Mathlib

/-!
Verification of the webhook endpoint lifecycle and request-capture pipeline
of the Webhook-Inspector-Django repository (`src/hooks`).

Modelling conventions:
* Timestamps are integers counted in minutes; one day is 1440 minutes
  (`dayMinutes`).  `timezone.now()` becomes an explicit `now : Int` argument.
* Django model rows become Lean structures; the nullable `expires_at` column
  becomes `Option Int`.
* The capture pipeline (`receive_webhook` in `views.py` followed by
  `RawRequestLoggingMiddleware.process_response` in `middleware.py`) is
  embedded both as a sequential state transformer (`capture`) and, for the
  concurrency analysis, as a small-step process whose database accesses are
  individual atomic actions (`capStep`).
* Request bodies arrive as raw byte lists (`List Nat`, each entry < 256 in
  practice); `utf8Decode` embeds the strict UTF-8 decoding performed by
  Python's `bytes.decode('utf-8')`.
-/

namespace WebhookInspector

/-- Status choices of `WebhookEndpoint.STATUS_CHOICES` (models.py). -/
inductive Status where
  | active
  | expired
  | disabled
  deriving DecidableEq, Repr

/-- One day in model time units (minutes). -/
def dayMinutes : Int := 1440

/-- `settings.WEBHOOK_EXPIRY_MINUTES` is read with
`getattr(settings, 'WEBHOOK_EXPIRY_MINUTES', 60)` (models.py line 52); no
settings module in the repository defines it, so the default 60 applies. -/
def WEBHOOK_EXPIRY_MINUTES : Int := 60

/-- The `WebhookEndpoint` Django model (models.py lines 10-81).
The opaque `uuid` and the nullable `owner` foreign key play no role in any
verified property and are omitted; all lifecycle-relevant columns are kept. -/
structure WebhookEndpoint where
  name : String := ""
  description : String := ""
  created_at : Int
  expires_at : Option Int := none
  max_requests : Nat := 100
  current_request_count : Nat := 0
  status : Status := Status.active
  is_public : Bool := true
  auto_delete_after_days : Nat := 7
  deriving DecidableEq, Repr

/-- `WebhookEndpoint.is_expired` (models.py lines 56-65): the property is
`True` when the status is non-active, when an expiry timestamp is set and
strictly in the past (`timezone.now() > self.expires_at`), or when the
request count has reached the quota. -/
def WebhookEndpoint.is_expired (w : WebhookEndpoint) (now : Int) : Bool :=
  if w.status ≠ Status.active then true
  else if (match w.expires_at with
           | some e => decide (now > e)
           | none => false) then true
  else if w.current_request_count ≥ w.max_requests then true
  else false

/-- `WebhookEndpoint.should_auto_delete` (models.py lines 67-71):
`created_at < timezone.now() - timedelta(days=self.auto_delete_after_days)`. -/
def WebhookEndpoint.should_auto_delete (w : WebhookEndpoint) (now : Int) : Bool :=
  w.created_at < now - (w.auto_delete_after_days : Int) * dayMinutes

/-- `WebhookEndpoint.increment_request_count` (models.py lines 73-78):
bump the in-memory count, flip the status to `expired` when the new count
reaches the quota, and save `current_request_count` and `status`. -/
def WebhookEndpoint.increment_request_count (w : WebhookEndpoint) : WebhookEndpoint :=
  let c := w.current_request_count + 1
  { w with
      current_request_count := c
      status := if c ≥ w.max_requests then Status.expired else w.status }

/-- `WebhookEndpoint.save` (models.py lines 48-54): on a new row
(`self.pk is None`) with no expiry set, default the expiry to
`timezone.now() + timedelta(minutes=WEBHOOK_EXPIRY_MINUTES)`. -/
def WebhookEndpoint.save (w : WebhookEndpoint) (isNew : Bool) (now : Int) : WebhookEndpoint :=
  if w.expires_at = none ∧ isNew then
    { w with expires_at := some (now + WEBHOOK_EXPIRY_MINUTES) }
  else w

/-- JSON parameters accepted by the `create_webhook` view (views.py lines
46-57); each `data.get(...)` with a default becomes an `Option`. -/
structure CreateParams where
  name : Option String := none
  description : Option String := none
  max_requests : Option Nat := none
  auto_delete_after_days : Option Nat := none
  deriving Repr

/-- The `create_webhook` view (views.py lines 46-64):
`WebhookEndpoint.objects.create(...)` with `data.get('max_requests', 100)` and
`data.get('auto_delete_after_days', 7)`; the model-level `save` then fills the
default expiry since the view never passes `expires_at`. -/
def create_webhook (p : CreateParams) (now : Int) : WebhookEndpoint :=
  WebhookEndpoint.save
    { name := p.name.getD ""
      description := p.description.getD ""
      created_at := now
      expires_at := none
      max_requests := p.max_requests.getD 100
      current_request_count := 0
      status := Status.active
      is_public := true
      auto_delete_after_days := p.auto_delete_after_days.getD 7 }
    true now

/-- Usability of an endpoint for capture, as the code computes it: the
negation of `is_expired` (views.py line 82, middleware.py line 51). -/
def usable (w : WebhookEndpoint) (now : Int) : Bool :=
  !(w.is_expired now)

/-- Modelled from the spec (section 4.2, claim C5): `isUsable(endpoint, now)`
is true iff `status == active AND (expiry unset OR now < expiry) AND
count < quota`.  Kept separate from `usable` so the two can be compared. -/
def isUsable_spec (w : WebhookEndpoint) (now : Int) : Bool :=
  decide (w.status = Status.active) &&
  (match w.expires_at with
   | none => true
   | some e => decide (now < e)) &&
  decide (w.current_request_count < w.max_requests)

/-- The amended usability predicate: identical to `isUsable_spec` except that
the endpoint is still usable at the exact expiry instant (`now ≤ expiry`). -/
def isUsable_amended (w : WebhookEndpoint) (now : Int) : Bool :=
  decide (w.status = Status.active) &&
  (match w.expires_at with
   | none => true
   | some e => decide (now ≤ e)) &&
  decide (w.current_request_count < w.max_requests)

/-- Does `needle` begin `hay`?  Helper for Python's `in` on strings. -/
def beginsWith : List Char → List Char → Bool
  | [], _ => true
  | _ :: _, [] => false
  | n :: ns, h :: hs => n = h && beginsWith ns hs

/-- Does `hay` contain `needle` as a contiguous run?  Embeds Python's
`needle in hay` substring test. -/
def hasSubstr : List Char → List Char → Bool
  | [], needle => needle.isEmpty
  | h :: t, needle => beginsWith needle (h :: t) || hasSubstr t needle

/-- Python's `needle in hay` on strings. -/
def strContains (hay needle : String) : Bool :=
  hasSubstr hay.data needle.data

/-- Python's `str.lower()`: character-wise lowercasing (the strings the
pipeline lowercases — HTTP verbs and content types — are ASCII). -/
def strLower (s : String) : String :=
  String.mk (s.data.map Char.toLower)

/-- The `WebhookRequest` Django model (models.py lines 84-151).  The header
map is kept in its textual form (`str(self.headers)`), which is all
`size_in_bytes` consumes. -/
structure WebhookRequest where
  method : String
  path : String := "/"
  query_string : String := ""
  headers : String := ""
  body : String := ""
  content_type : String := ""
  content_length : Nat := 0
  received_at : Int
  ip_address : String := ""
  user_agent : String := ""
  referer : String := ""
  processed : Bool := false
  processed_at : Option Int := none
  deriving DecidableEq, Repr

/-- `WebhookRequest.size_in_bytes` (models.py lines 146-151):
`len(str(self.headers).encode('utf-8')) + len(self.body.encode('utf-8'))`. -/
def WebhookRequest.size_in_bytes (r : WebhookRequest) : Nat :=
  r.headers.utf8ByteSize + r.body.utf8ByteSize

/-- The `WebhookAnalytics` Django model (models.py lines 154-223) with the
column defaults of the source; `average_request_size` (a Python float) is
modelled as an exact rational. -/
structure WebhookAnalytics where
  total_requests : Nat := 0
  successful_requests : Nat := 0
  failed_requests : Nat := 0
  total_bytes_received : Nat := 0
  average_request_size : ℚ := 0
  get_requests : Nat := 0
  post_requests : Nat := 0
  put_requests : Nat := 0
  patch_requests : Nat := 0
  delete_requests : Nat := 0
  other_requests : Nat := 0
  json_requests : Nat := 0
  xml_requests : Nat := 0
  form_requests : Nat := 0
  text_requests : Nat := 0
  other_content_requests : Nat := 0
  last_request_at : Option Int := none
  deriving DecidableEq, Repr

/-- The method-bucket part of `update_stats` (models.py lines 201-206):
`method_field = f"{request_obj.method.lower()}_requests"` followed by
`hasattr`/`setattr`.  Every attribute of `WebhookAnalytics` named
`<x>_requests` is reachable this way, so each such field gets a branch;
methods whose lowercase form matches no field fall through to
`other_requests`. -/
def WebhookAnalytics.bumpMethod (a : WebhookAnalytics) (m : String) : WebhookAnalytics :=
  match strLower m with
  | "total" => { a with total_requests := a.total_requests + 1 }
  | "successful" => { a with successful_requests := a.successful_requests + 1 }
  | "failed" => { a with failed_requests := a.failed_requests + 1 }
  | "get" => { a with get_requests := a.get_requests + 1 }
  | "post" => { a with post_requests := a.post_requests + 1 }
  | "put" => { a with put_requests := a.put_requests + 1 }
  | "patch" => { a with patch_requests := a.patch_requests + 1 }
  | "delete" => { a with delete_requests := a.delete_requests + 1 }
  | "other" => { a with other_requests := a.other_requests + 1 }
  | "json" => { a with json_requests := a.json_requests + 1 }
  | "xml" => { a with xml_requests := a.xml_requests + 1 }
  | "form" => { a with form_requests := a.form_requests + 1 }
  | "text" => { a with text_requests := a.text_requests + 1 }
  | "other_content" => { a with other_content_requests := a.other_content_requests + 1 }
  | _ => { a with other_requests := a.other_requests + 1 }

/-- The content-type part of `update_stats` (models.py lines 208-221):
substring tests on the lowercased declared content type, in source order
json, xml, form, text, other; an empty content type is falsy in Python and
lands in `other_content_requests`. -/
def WebhookAnalytics.bumpContentType (a : WebhookAnalytics) (ct : String) : WebhookAnalytics :=
  if ct ≠ "" then
    if strContains (strLower ct) "json" then
      { a with json_requests := a.json_requests + 1 }
    else if strContains (strLower ct) "xml" then
      { a with xml_requests := a.xml_requests + 1 }
    else if strContains (strLower ct) "form" then
      { a with form_requests := a.form_requests + 1 }
    else if strContains (strLower ct) "text" then
      { a with text_requests := a.text_requests + 1 }
    else
      { a with other_content_requests := a.other_content_requests + 1 }
  else
    { a with other_content_requests := a.other_content_requests + 1 }

/-- `WebhookAnalytics.update_stats` (models.py lines 190-223).  The guarded
assignment `if self.total_requests > 0: self.average_request_size = ...` is
rendered as a conditional field value (the field keeps its old value when
the guard fails), which is the same state change. -/
def WebhookAnalytics.update_stats (a : WebhookAnalytics) (r : WebhookRequest) : WebhookAnalytics :=
  let a1 := { a with
      total_requests := a.total_requests + 1
      successful_requests := a.successful_requests + 1
      total_bytes_received := a.total_bytes_received + r.size_in_bytes
      last_request_at := some r.received_at }
  let a2 := { a1 with average_request_size :=
      if a1.total_requests > 0 then
        (a1.total_bytes_received : ℚ) / (a1.total_requests : ℚ)
      else a1.average_request_size }
  (a2.bumpMethod r.method).bumpContentType r.content_type

/-- Is `b` a UTF-8 continuation byte (`0x80..0xBF`)? -/
def isCont (b : Nat) : Bool :=
  0x80 ≤ b && b ≤ 0xBF

/-- Strict UTF-8 decoding of a byte list, as performed by Python's
`bytes.decode('utf-8')`: rejects bytes `0xC0`/`0xC1`/`0xF5..0xFF`, overlong
encodings, surrogate code points (`0xED` with second byte above `0x9F`) and
code points above `U+10FFFF` (`0xF4` with second byte above `0x8F`). -/
def utf8Decode : List Nat → Option (List Char)
  | [] => some []
  | b :: rest =>
    if b ≤ 0x7F then
      (utf8Decode rest).map (fun cs => Char.ofNat b :: cs)
    else if 0xC2 ≤ b && b ≤ 0xDF then
      match rest with
      | b1 :: r2 =>
        if isCont b1 then
          (utf8Decode r2).map (fun cs =>
            Char.ofNat ((b - 0xC0) * 0x40 + (b1 - 0x80)) :: cs)
        else none
      | [] => none
    else if 0xE0 ≤ b && b ≤ 0xEF then
      match rest with
      | b1 :: b2 :: r3 =>
        if (if b = 0xE0 then 0xA0 ≤ b1 && b1 ≤ 0xBF
            else if b = 0xED then 0x80 ≤ b1 && b1 ≤ 0x9F
            else isCont b1) && isCont b2 then
          (utf8Decode r3).map (fun cs =>
            Char.ofNat ((b - 0xE0) * 0x1000 + (b1 - 0x80) * 0x40 + (b2 - 0x80)) :: cs)
        else none
      | _ => none
    else if 0xF0 ≤ b && b ≤ 0xF4 then
      match rest with
      | b1 :: b2 :: b3 :: r4 =>
        if (if b = 0xF0 then 0x90 ≤ b1 && b1 ≤ 0xBF
            else if b = 0xF4 then 0x80 ≤ b1 && b1 ≤ 0x8F
            else isCont b1) && isCont b2 && isCont b3 then
          (utf8Decode r4).map (fun cs =>
            Char.ofNat ((b - 0xF0) * 0x40000 + (b1 - 0x80) * 0x1000 +
              (b2 - 0x80) * 0x40 + (b3 - 0x80)) :: cs)
        else none
      | _ => none
    else none

/-- `RawRequestLoggingMiddleware._get_request_body` (middleware.py lines
110-120): decode the body as UTF-8; on `UnicodeDecodeError` substitute
`f"[Binary data: {len(request.body)} bytes]"`. -/
def get_request_body (bodyBytes : List Nat) : String :=
  match utf8Decode bodyBytes with
  | some cs => String.mk cs
  | none => "[Binary data: " ++ toString bodyBytes.length ++ " bytes]"

/-- `RawRequestLoggingMiddleware._get_client_ip` (middleware.py lines
122-129): the first comma-separated entry of a non-empty
`X-Forwarded-For`, else `REMOTE_ADDR`, else `127.0.0.1`. -/
def get_client_ip (x_forwarded_for : Option String) (remote_addr : Option String) : String :=
  match x_forwarded_for with
  | some xff =>
    if xff ≠ "" then ((xff.splitOn ",").headD "").trim
    else remote_addr.getD "127.0.0.1"
  | none => remote_addr.getD "127.0.0.1"

/-- The transport-level data of one inbound HTTP request, as captured into
`request._webhook_data` by `RawRequestLoggingMiddleware.process_request`
(middleware.py lines 18-41); the header map is kept in its textual form. -/
structure RawRequest where
  method : String
  path : String := "/"
  query_string : String := ""
  headersRepr : String := ""
  bodyBytes : List Nat := []
  content_type : String := ""
  content_length : Nat := 0
  x_forwarded_for : Option String := none
  remote_addr : Option String := none
  user_agent : String := ""
  referer : String := ""
  deriving DecidableEq, Repr

/-- The `WebhookRequest.objects.create(...)` call of
`RawRequestLoggingMiddleware.process_response` (middleware.py lines 56-69),
with the field extraction of `process_request`. -/
def buildRequest (raw : RawRequest) (now : Int) : WebhookRequest :=
  { method := raw.method
    path := raw.path
    query_string := raw.query_string
    headers := raw.headersRepr
    body := get_request_body raw.bodyBytes
    content_type := raw.content_type
    content_length := raw.content_length
    received_at := now
    ip_address := get_client_ip raw.x_forwarded_for raw.remote_addr
    user_agent := raw.user_agent
    referer := raw.referer }

/-- Methods admitted by the `require_http_methods` decorator on
`receive_webhook` (views.py line 72); any other verb is answered with 405
before the view body runs, so no capture happens. -/
def allowedMethods : List String :=
  ["GET", "POST", "PUT", "PATCH", "DELETE", "HEAD", "OPTIONS"]

/-- Persistent state of one endpoint together with its owned rows:
`endpoint = none` means the row was deleted (cascading to requests and
analytics, middleware/models `on_delete=CASCADE`). -/
structure EndpointState where
  endpoint : Option WebhookEndpoint
  requests : List WebhookRequest := []
  analytics : Option WebhookAnalytics := none
  deriving DecidableEq, Repr

/-- A freshly created endpoint has no captured requests and no analytics row
(analytics is created lazily by the first capture). -/
def initialState (w : WebhookEndpoint) : EndpointState :=
  { endpoint := some w, requests := [], analytics := none }

/-- The sequential capture pipeline: `receive_webhook` (views.py lines
73-100) followed by `RawRequestLoggingMiddleware.process_response`
(middleware.py lines 43-94), which under sequential execution re-reads the
same endpoint row the view saw.  Disallowed verbs are refused with 405 by
`require_http_methods`; an unknown endpoint yields 404
(`get_object_or_404`).  On an expired endpoint both the view and the
middleware store `status = 'expired'` and answer 410; otherwise the
middleware creates the request row, runs `increment_request_count`,
get-or-creates the analytics row and runs `update_stats`, and the view's
200 acknowledgment is returned. -/
def capture (s : EndpointState) (raw : RawRequest) (now : Int) : EndpointState × Nat :=
  if raw.method ∉ allowedMethods then (s, 405)
  else
    match s.endpoint with
    | none => (s, 404)
    | some w =>
      if w.is_expired now then
        ({ s with endpoint := some { w with status := Status.expired } }, 410)
      else
        let req := buildRequest raw now
        let w2 := w.increment_request_count
        let a2 := (s.analytics.getD {}).update_stats req
        ({ endpoint := some w2
           requests := s.requests ++ [req]
           analytics := some a2 }, 200)

/-- First bulk update of `cleanup_expired_webhooks` (tasks.py lines 95-100):
`filter(status='active', expires_at__lt=now).update(status='expired')`. -/
def markExpiredByTime (now : Int) (w : WebhookEndpoint) : WebhookEndpoint :=
  if decide (w.status = Status.active) &&
     (match w.expires_at with
      | some e => decide (e < now)
      | none => false) then
    { w with status := Status.expired }
  else w

/-- Second bulk update of `cleanup_expired_webhooks` (tasks.py lines
102-108): `filter(status='active')` with
`current_request_count >= max_requests`, updated to `expired`. -/
def markExpiredByLimit (w : WebhookEndpoint) : WebhookEndpoint :=
  if w.status = Status.active ∧ w.current_request_count ≥ w.max_requests then
    { w with status := Status.expired }
  else w

/-- The deletion condition of `cleanup_expired_webhooks` (tasks.py lines
110-125): queryset filter `created_at < now - timedelta(days=7)` (a
hard-coded cutoff) and `status in ['expired', 'disabled']`, then the
per-row `should_auto_delete` check before `webhook.delete()`. -/
def deleteCondition (now : Int) (w : WebhookEndpoint) : Bool :=
  decide (w.created_at < now - 7 * dayMinutes) &&
  (decide (w.status = Status.expired) || decide (w.status = Status.disabled)) &&
  w.should_auto_delete now

/-- The `cleanup_expired_webhooks` sweep task (tasks.py lines 88-139) on a
store of endpoint rows: the two bulk status updates followed by the
deletion pass (deletion cascades to the endpoint's requests). -/
def cleanup_expired_webhooks (store : List WebhookEndpoint) (now : Int) :
    List WebhookEndpoint :=
  let s1 := store.map (markExpiredByTime now)
  let s2 := s1.map markExpiredByLimit
  s2.filter (fun w => !(deleteCondition now w))

/-- Both status updates of the sweep, applied to a single endpoint row. -/
def sweepMark (now : Int) (w : WebhookEndpoint) : WebhookEndpoint :=
  markExpiredByLimit (markExpiredByTime now w)

/-- An operation of the core against one endpoint's state: a capture attempt
(views.py + middleware.py) or one run of the sweep (tasks.py). -/
inductive Op where
  | capture (raw : RawRequest) (now : Int)
  | sweep (now : Int)

/-- Apply one operation to an endpoint's state.  A sweep marks the endpoint
per `sweepMark` and, when `deleteCondition` holds, deletes the endpoint
row, cascading to its requests and analytics row. -/
def applyOp (s : EndpointState) (op : Op) : EndpointState :=
  match op with
  | Op.capture raw now => (capture s raw now).1
  | Op.sweep now =>
    match s.endpoint with
    | none => s
    | some w =>
      let w2 := sweepMark now w
      if deleteCondition now w2 then
        { endpoint := none, requests := [], analytics := none }
      else
        { s with endpoint := some w2 }

/-- Run a sequence of operations. -/
def runOps (s : EndpointState) : List Op → EndpointState
  | [] => s
  | op :: ops => runOps (applyOp s op) ops

/-- Shared (database) state seen by concurrent captures against one
endpoint: the endpoint row and the number of `WebhookRequest` rows. -/
structure DBState where
  ep : WebhookEndpoint
  rowCount : Nat
  deriving DecidableEq, Repr

/-- Control state of one in-flight capture, between its atomic database
accesses.  `snap` is the stale in-memory copy of the endpoint row that the
Python code carries between accesses.  The `midFetchR`/`midCheckR`/
`insertRowR`/`writeCountR` phases are the middleware pass that still runs
after the view has already answered 410: the middleware re-fetches and
re-checks, and — when a concurrent stale status write has meanwhile made
the endpoint look active again — even logs a row and increments, while the
view's 410 response stands. -/
inductive CapPhase where
  | viewFetch
  | viewCheck (snap : WebhookEndpoint)
  | midFetch (snap : WebhookEndpoint)
  | midCheck (snap : WebhookEndpoint)
  | insertRow (snap : WebhookEndpoint)
  | writeCount (snap : WebhookEndpoint)
  | midFetchR
  | midCheckR (snap : WebhookEndpoint)
  | insertRowR (snap : WebhookEndpoint)
  | writeCountR (snap : WebhookEndpoint)
  | finished (code : Nat) (pushed : Bool)
  deriving DecidableEq, Repr

/-- One atomic step of an in-flight capture.  Each step performs at most one
database access, mirroring the accesses of `receive_webhook` and
`process_response`:
* `viewFetch`/`midFetch`: the `SELECT` of the endpoint row (views.py line
  76, middleware.py line 48);
* `viewCheck`/`midCheck` on an expired snapshot: `webhook.status =
  'expired'; webhook.save()` — a full save that also writes the stale
  count back (views.py lines 83-84, middleware.py lines 52-53);
* `insertRow`: `WebhookRequest.objects.create(...)` (middleware.py 57);
* `writeCount`: `increment_request_count`'s
  `save(update_fields=['current_request_count', 'status'])`, which writes
  `snap.count + 1` and the recomputed status over the current row
  (models.py lines 73-78).  `pushed` records whether this write flipped
  the status because the new count reached the quota.
The analytics get-or-create/update that follows the count write in the
middleware touches a separate row and is outside this model, which covers
the endpoint-row and request-row effects claim C1 is about. -/
def capStep (now : Int) (db : DBState) (p : CapPhase) : DBState × CapPhase :=
  match p with
  | CapPhase.viewFetch => (db, CapPhase.viewCheck db.ep)
  | CapPhase.viewCheck snap =>
    if snap.is_expired now then
      ({ db with ep := { snap with status := Status.expired } },
       CapPhase.midFetchR)
    else (db, CapPhase.midFetch snap)
  | CapPhase.midFetch _ => (db, CapPhase.midCheck db.ep)
  | CapPhase.midCheck snap =>
    if snap.is_expired now then
      ({ db with ep := { snap with status := Status.expired } },
       CapPhase.finished 410 false)
    else (db, CapPhase.insertRow snap)
  | CapPhase.insertRow snap =>
    ({ db with rowCount := db.rowCount + 1 }, CapPhase.writeCount snap)
  | CapPhase.writeCount snap =>
    let c := snap.current_request_count + 1
    let st := if c ≥ snap.max_requests then Status.expired else snap.status
    ({ db with ep := { db.ep with current_request_count := c, status := st } },
     CapPhase.finished 200 (decide (c ≥ snap.max_requests)))
  | CapPhase.midFetchR => (db, CapPhase.midCheckR db.ep)
  | CapPhase.midCheckR snap =>
    if snap.is_expired now then
      ({ db with ep := { snap with status := Status.expired } },
       CapPhase.finished 410 false)
    else (db, CapPhase.insertRowR snap)
  | CapPhase.insertRowR snap =>
    ({ db with rowCount := db.rowCount + 1 }, CapPhase.writeCountR snap)
  | CapPhase.writeCountR snap =>
    let c := snap.current_request_count + 1
    let st := if c ≥ snap.max_requests then Status.expired else snap.status
    ({ db with ep := { db.ep with current_request_count := c, status := st } },
     CapPhase.finished 410 (decide (c ≥ snap.max_requests)))
  | CapPhase.finished code pushed => (db, CapPhase.finished code pushed)

/-- A system of concurrent captures against one endpoint. -/
structure ConcState where
  db : DBState
  procs : List CapPhase
  deriving DecidableEq, Repr

/-- Let process `i` take its next atomic step (no-op on finished or
out-of-range processes). -/
def schedStep (now : Int) (s : ConcState) (i : Nat) : ConcState :=
  match s.procs.get? i with
  | none => s
  | some p =>
    match p with
    | CapPhase.finished _ _ => s
    | _ =>
      let r := capStep now s.db p
      { db := r.1, procs := s.procs.set i r.2 }

/-- Run a schedule: a list of process indices, each taking one step. -/
def schedRun (now : Int) (s : ConcState) : List Nat → ConcState
  | [] => s
  | i :: rest => schedRun now (schedStep now s i) rest

/-- `n` capture attempts started concurrently against endpoint `w`, with no
request rows yet. -/
def initialConc (w : WebhookEndpoint) (n : Nat) : ConcState :=
  { db := { ep := w, rowCount := 0 }
    procs := List.replicate n CapPhase.viewFetch }

/-- Number of captures that finished accepted (HTTP 200). -/
def acceptedCount (s : ConcState) : Nat :=
  (s.procs.filter (fun p =>
    match p with
    | CapPhase.finished 200 _ => true
    | _ => false)).length

/-- Number of captures whose count-write pushed the count to the quota and
flipped the status to expired. -/
def pusherCount (s : ConcState) : Nat :=
  (s.procs.filter (fun p =>
    match p with
    | CapPhase.finished _ pushed => pushed
    | _ => false)).length

/-- Content-type families counted by the analytics (spec section 4.4). -/
inductive CTBucket where
  | json
  | xml
  | form
  | text
  | other
  deriving DecidableEq, Repr

/-- Modelled from the spec (claim C9): classification of a declared content
type by substring match in the fixed priority order json, xml, form, text,
other; first match wins, and an absent content type is `other`. -/
def contentBucket (ct : String) : CTBucket :=
  if ct ≠ "" then
    if strContains (strLower ct) "json" then CTBucket.json
    else if strContains (strLower ct) "xml" then CTBucket.xml
    else if strContains (strLower ct) "form" then CTBucket.form
    else if strContains (strLower ct) "text" then CTBucket.text
    else CTBucket.other
  else CTBucket.other

/-- `EndpointAnalytics.total_requests` as observable on a state: 0 when the
analytics row does not exist yet. -/
def analyticsTotal (s : EndpointState) : Nat :=
  match s.analytics with
  | some a => a.total_requests
  | none => 0

/-- Quota-consistency of one endpoint row: the quota equals `M` and the
count has not exceeded it. -/
def EpOk (M : Nat) (w : WebhookEndpoint) : Prop :=
  w.max_requests = M ∧ w.current_request_count ≤ M

/-- Quota-consistency of an in-flight capture's snapshot: any held snapshot
satisfies `EpOk`, and a capture that passed the middleware usability check
holds a snapshot strictly under quota. -/
def PhaseOk (M : Nat) : CapPhase → Prop
  | CapPhase.viewFetch => True
  | CapPhase.viewCheck snap => EpOk M snap
  | CapPhase.midFetch snap => EpOk M snap
  | CapPhase.midCheck snap => EpOk M snap
  | CapPhase.insertRow snap =>
    snap.max_requests = M ∧ snap.current_request_count < M
  | CapPhase.writeCount snap =>
    snap.max_requests = M ∧ snap.current_request_count < M
  | CapPhase.midFetchR => True
  | CapPhase.midCheckR snap => EpOk M snap
  | CapPhase.insertRowR snap =>
    snap.max_requests = M ∧ snap.current_request_count < M
  | CapPhase.writeCountR snap =>
    snap.max_requests = M ∧ snap.current_request_count < M
  | CapPhase.finished _ _ => True

/-- Global quota-consistency of a concurrent capture system. -/
def ConcOk (M : Nat) (s : ConcState) : Prop :=
  EpOk M s.db.ep ∧ ∀ p ∈ s.procs, PhaseOk M p

/-- Shared database state for the analytics-aware concurrency model of the
capture pipeline: the endpoint row, the stored `WebhookRequest` rows and
the lazily created analytics row. -/
structure AnaDB where
  ep : WebhookEndpoint
  rows : List WebhookRequest
  analytics : Option WebhookAnalytics
  deriving DecidableEq, Repr

/-- Control state of one in-flight capture in the analytics-aware model.
The endpoint phases mirror `CapPhase`; after its count write the
middleware continues with the analytics update (middleware.py lines
74-79): `anaGet` is the `WebhookAnalytics.objects.get_or_create` access,
modelled as one atomic access that reads the row and inserts the default
row on a miss (a granularity that is conservative: splitting it can only
introduce more races), and `anaUpdate` is `update_stats`'s in-memory
read-modify-write followed by `self.save()`, which writes the whole row
computed from the stale snapshot `snapA`.  `code` carries the HTTP code of
the response already chosen by the view. -/
inductive AnaPhase where
  | viewFetch
  | viewCheck (snap : WebhookEndpoint)
  | midFetch (snap : WebhookEndpoint)
  | midCheck (snap : WebhookEndpoint)
  | insertRow (snap : WebhookEndpoint)
  | writeCount (snap : WebhookEndpoint)
  | midFetchR
  | midCheckR (snap : WebhookEndpoint)
  | insertRowR (snap : WebhookEndpoint)
  | writeCountR (snap : WebhookEndpoint)
  | anaGet (code : Nat)
  | anaUpdate (code : Nat) (snapA : WebhookAnalytics)
  | finished (code : Nat)
  deriving DecidableEq, Repr

/-- One atomic step of an in-flight capture in the analytics-aware model:
the endpoint-row steps of `capStep` (with stored rows kept as a list), then
the analytics get-or-create and the stale-snapshot analytics write.
`raw` is the inbound request this capture is recording. -/
def anaStep (now : Int) (raw : RawRequest) (db : AnaDB) (p : AnaPhase) :
    AnaDB × AnaPhase :=
  match p with
  | AnaPhase.viewFetch => (db, AnaPhase.viewCheck db.ep)
  | AnaPhase.viewCheck snap =>
    if snap.is_expired now then
      ({ db with ep := { snap with status := Status.expired } }, AnaPhase.midFetchR)
    else (db, AnaPhase.midFetch snap)
  | AnaPhase.midFetch _ => (db, AnaPhase.midCheck db.ep)
  | AnaPhase.midCheck snap =>
    if snap.is_expired now then
      ({ db with ep := { snap with status := Status.expired } },
       AnaPhase.finished 410)
    else (db, AnaPhase.insertRow snap)
  | AnaPhase.insertRow snap =>
    ({ db with rows := db.rows ++ [buildRequest raw now] }, AnaPhase.writeCount snap)
  | AnaPhase.writeCount snap =>
    let c := snap.current_request_count + 1
    let st := if c ≥ snap.max_requests then Status.expired else snap.status
    ({ db with ep := { db.ep with current_request_count := c, status := st } },
     AnaPhase.anaGet 200)
  | AnaPhase.midFetchR => (db, AnaPhase.midCheckR db.ep)
  | AnaPhase.midCheckR snap =>
    if snap.is_expired now then
      ({ db with ep := { snap with status := Status.expired } },
       AnaPhase.finished 410)
    else (db, AnaPhase.insertRowR snap)
  | AnaPhase.insertRowR snap =>
    ({ db with rows := db.rows ++ [buildRequest raw now] }, AnaPhase.writeCountR snap)
  | AnaPhase.writeCountR snap =>
    let c := snap.current_request_count + 1
    let st := if c ≥ snap.max_requests then Status.expired else snap.status
    ({ db with ep := { db.ep with current_request_count := c, status := st } },
     AnaPhase.anaGet 410)
  | AnaPhase.anaGet code =>
    (match db.analytics with
     | none => ({ db with analytics := some {} }, AnaPhase.anaUpdate code {})
     | some a => (db, AnaPhase.anaUpdate code a))
  | AnaPhase.anaUpdate code snapA =>
    ({ db with analytics := some (snapA.update_stats (buildRequest raw now)) },
     AnaPhase.finished code)
  | AnaPhase.finished code => (db, AnaPhase.finished code)

/-- A system of concurrent captures in the analytics-aware model; each
process carries the inbound request it is recording. -/
structure AnaConc where
  db : AnaDB
  procs : List (RawRequest × AnaPhase)
  deriving DecidableEq, Repr

/-- Let process `i` take its next atomic step (no-op on finished or
out-of-range processes). -/
def anaSchedStep (now : Int) (s : AnaConc) (i : Nat) : AnaConc :=
  match s.procs.get? i with
  | none => s
  | some rp =>
    match rp.2 with
    | AnaPhase.finished _ => s
    | _ =>
      let r := anaStep now rp.1 s.db rp.2
      { db := r.1, procs := s.procs.set i (rp.1, r.2) }

/-- Run a schedule in the analytics-aware model. -/
def anaSchedRun (now : Int) (s : AnaConc) : List Nat → AnaConc
  | [] => s
  | i :: rest => anaSchedRun now (anaSchedStep now s i) rest

/-- Concurrent capture attempts (one per inbound request in `raws`) started
against endpoint `w`, with no rows and no analytics row yet. -/
def initialAnaConc (w : WebhookEndpoint) (raws : List RawRequest) : AnaConc :=
  { db := { ep := w, rows := [], analytics := none }
    procs := raws.map (fun raw => (raw, AnaPhase.viewFetch)) }

/-- `total_requests` as observable on an analytics-aware system state. -/
def anaTotal (s : AnaConc) : Nat :=
  match s.db.analytics with
  | some a => a.total_requests
  | none => 0

/-! ## Helper lemmas -/

theorem is_expired_false_iff (w : WebhookEndpoint) (now : Int) :
    w.is_expired now = false ↔
      w.status = Status.active ∧
      (∀ e, w.expires_at = some e → now ≤ e) ∧
      w.current_request_count < w.max_requests := by
  unfold WebhookEndpoint.is_expired
  rcases hE : w.expires_at with _ | e <;>
    by_cases hs : w.status = Status.active <;>
      simp [hs, hE]

theorem is_expired_true_of_nonactive (w : WebhookEndpoint) (now : Int)
    (h : w.status ≠ Status.active) : w.is_expired now = true := by
  unfold WebhookEndpoint.is_expired
  simp [h]

/-! ## Claim C5 -/

/-- Claim C5, counterexample: at the exact instant `now = expiry` the code
still treats the endpoint as usable (`timezone.now() > self.expires_at` is a
strict comparison), while the claim's `now < expiry` says it is not. -/
theorem c5_counterexample :
    usable ({ created_at := 0, expires_at := some 100 } : WebhookEndpoint) 100 = true ∧
    isUsable_spec ({ created_at := 0, expires_at := some 100 } : WebhookEndpoint) 100 = false := by
  decide

/-- Claim C5 (amended): an endpoint is usable for capture iff its status is
`active`, the expiry is unset or `now ≤ expiry`, and the count is under the
quota; at the exact instant `now = expiry` the endpoint is still usable. -/
theorem c5_usable_iff (w : WebhookEndpoint) (now : Int) :
    usable w now = isUsable_amended w now := by
  unfold usable WebhookEndpoint.is_expired isUsable_amended
  rcases hE : w.expires_at with _ | e <;>
    by_cases hs : w.status = Status.active <;>
      simp [hs, hE]
  · rw [Bool.eq_iff_iff]
    simp only [Bool.not_eq_true', decide_eq_true_eq, decide_eq_false_iff_not]
    omega
  · rw [Bool.eq_iff_iff]
    simp only [Bool.and_eq_true, Bool.not_eq_true', decide_eq_true_eq,
      decide_eq_false_iff_not]
    constructor <;> intro h <;> exact ⟨by omega, by omega⟩

/-! ## Claim C7 -/

/-- Claim C7: an endpoint created without an explicit expiry gets
`expires_at = created_at + 60` minutes (the configured default window), and
a save of a new endpoint that carries an explicit expiry leaves it
unchanged. -/
theorem c7_default_expiry (p : CreateParams) (now : Int) :
    (create_webhook p now).expires_at =
      some ((create_webhook p now).created_at + WEBHOOK_EXPIRY_MINUTES) ∧
    WEBHOOK_EXPIRY_MINUTES = 60 ∧
    (∀ (w : WebhookEndpoint) (isNew : Bool) (e : Int),
      w.expires_at = some e → (w.save isNew now).expires_at = some e) := by
  refine ⟨rfl, rfl, ?_⟩
  intro w isNew e he
  unfold WebhookEndpoint.save
  simp [he]

/-- Claim C7, witness at concrete inputs. -/
theorem c7_default_expiry_witness :
    (create_webhook {} 5).expires_at =
      some ((create_webhook {} 5).created_at + WEBHOOK_EXPIRY_MINUTES) ∧
    (({ created_at := 0, expires_at := some 9 } : WebhookEndpoint).save true 5).expires_at =
      some 9 :=
  ⟨(c7_default_expiry {} 5).1,
   (c7_default_expiry {} 5).2.2 { created_at := 0, expires_at := some 9 } true 9 rfl⟩

/-! ## Claim C10 -/

/-- Claim C10: a creation request that omits the quota and retention
parameters yields an endpoint with `max_requests = 100`,
`auto_delete_after_days = 7`, `status = 'active'`,
`current_request_count = 0` and `is_public = true`. -/
theorem c10_creation_defaults (now : Int) (nm ds : Option String) :
    (create_webhook { name := nm, description := ds } now).max_requests = 100 ∧
    (create_webhook { name := nm, description := ds } now).auto_delete_after_days = 7 ∧
    (create_webhook { name := nm, description := ds } now).status = Status.active ∧
    (create_webhook { name := nm, description := ds } now).current_request_count = 0 ∧
    (create_webhook { name := nm, description := ds } now).is_public = true :=
  ⟨rfl, rfl, rfl, rfl, rfl⟩

/-! ## Claim C2 -/

/-- Claim C2: a capture attempt against an endpoint whose stored status is
not `active` answers HTTP 410, creates no request row, changes no analytics,
and leaves the count unchanged (only the status field is rewritten to
`expired`). -/
theorem c2_nonactive_gone (s : EndpointState) (w : WebhookEndpoint)
    (raw : RawRequest) (now : Int)
    (hep : s.endpoint = some w) (hst : w.status ≠ Status.active)
    (hm : raw.method ∈ allowedMethods) :
    (capture s raw now).2 = 410 ∧
    (capture s raw now).1.requests = s.requests ∧
    (capture s raw now).1.analytics = s.analytics ∧
    (capture s raw now).1.endpoint = some { w with status := Status.expired } := by
  have hexp : w.is_expired now = true := is_expired_true_of_nonactive w now hst
  unfold capture
  simp [hm, hep, hexp]

/-- Claim C2, witness: a concrete expired endpoint rejects a POST with 410
and stores nothing. -/
theorem c2_nonactive_gone_witness :
    (capture (initialState { created_at := 0, status := Status.expired })
        { method := "POST" } 3).2 = 410 ∧
    (capture (initialState { created_at := 0, status := Status.expired })
        { method := "POST" } 3).1.requests = [] :=
  ⟨(c2_nonactive_gone (initialState { created_at := 0, status := Status.expired })
      { created_at := 0, status := Status.expired } { method := "POST" } 3
      rfl (by decide) (by decide)).1,
   ((c2_nonactive_gone (initialState { created_at := 0, status := Status.expired })
      { created_at := 0, status := Status.expired } { method := "POST" } 3
      rfl (by decide) (by decide)).2.1).trans rfl⟩

/-! ## Claim C9 -/

theorem bumpContentType_json (x : WebhookAnalytics) (ct : String) :
    (x.bumpContentType ct).json_requests =
      x.json_requests + (if contentBucket ct = CTBucket.json then 1 else 0) := by
  unfold WebhookAnalytics.bumpContentType contentBucket
  split_ifs <;> simp_all

theorem bumpContentType_xml (x : WebhookAnalytics) (ct : String) :
    (x.bumpContentType ct).xml_requests =
      x.xml_requests + (if contentBucket ct = CTBucket.xml then 1 else 0) := by
  unfold WebhookAnalytics.bumpContentType contentBucket
  split_ifs <;> simp_all

theorem bumpContentType_form (x : WebhookAnalytics) (ct : String) :
    (x.bumpContentType ct).form_requests =
      x.form_requests + (if contentBucket ct = CTBucket.form then 1 else 0) := by
  unfold WebhookAnalytics.bumpContentType contentBucket
  split_ifs <;> simp_all

theorem bumpContentType_text (x : WebhookAnalytics) (ct : String) :
    (x.bumpContentType ct).text_requests =
      x.text_requests + (if contentBucket ct = CTBucket.text then 1 else 0) := by
  unfold WebhookAnalytics.bumpContentType contentBucket
  split_ifs <;> simp_all

theorem bumpContentType_other (x : WebhookAnalytics) (ct : String) :
    (x.bumpContentType ct).other_content_requests =
      x.other_content_requests +
        (if contentBucket ct = CTBucket.other then 1 else 0) := by
  unfold WebhookAnalytics.bumpContentType contentBucket
  split_ifs <;> simp_all

/-- Claim C9: for any request whose verb can reach the pipeline, the
analytics update bumps exactly the content-type bucket selected by the fixed
priority order json, xml, form, text, other (first substring match wins), so
in particular a content type containing both "json" and "xml" lands in the
json bucket. -/
theorem c9_content_classification (a : WebhookAnalytics) (r : WebhookRequest)
    (hm : r.method ∈ allowedMethods) :
    ((a.update_stats r).json_requests =
       a.json_requests + (if contentBucket r.content_type = CTBucket.json then 1 else 0)) ∧
    ((a.update_stats r).xml_requests =
       a.xml_requests + (if contentBucket r.content_type = CTBucket.xml then 1 else 0)) ∧
    ((a.update_stats r).form_requests =
       a.form_requests + (if contentBucket r.content_type = CTBucket.form then 1 else 0)) ∧
    ((a.update_stats r).text_requests =
       a.text_requests + (if contentBucket r.content_type = CTBucket.text then 1 else 0)) ∧
    ((a.update_stats r).other_content_requests =
       a.other_content_requests +
         (if contentBucket r.content_type = CTBucket.other then 1 else 0)) := by
  obtain ⟨m, pth, qs, hd, bd, ct, cl, ra, ip, ua, rf, pc, pa⟩ := r
  fin_cases hm <;>
    exact ⟨bumpContentType_json _ _, bumpContentType_xml _ _,
      bumpContentType_form _ _, bumpContentType_text _ _,
      bumpContentType_other _ _⟩

/-- Claim C9, witness: a GET with content type `application/json+xml`
(containing both tokens) increments the json bucket. -/
theorem c9_content_classification_witness :
    contentBucket "application/json+xml" = CTBucket.json ∧
    (({} : WebhookAnalytics).update_stats
        { method := "GET", content_type := "application/json+xml",
          received_at := 0 }).json_requests =
      ({} : WebhookAnalytics).json_requests +
        (if contentBucket "application/json+xml" = CTBucket.json then 1 else 0) :=
  ⟨by decide,
   (c9_content_classification {}
      { method := "GET", content_type := "application/json+xml", received_at := 0 }
      (by decide)).1⟩

/-! ## UTF-8 round trip

The following lemmas certify `utf8Decode` against Lean's own UTF-8 encoder:
decoding the encoding of any text yields exactly that text, which backs the
"if the raw bytes decode as UTF-8 the decoded text is stored" half of claim
C8. -/

theorem uor_toNat (a b : UInt8) : (a ||| b).toNat = a.toNat ||| b.toNat := BitVec.toNat_or ..

theorem toNat_toUInt8 (a : UInt32) : a.toUInt8.toNat = a.toNat % 256 := by
  show (UInt8.ofNat a.toNat).toNat = a.toNat % 256
  simp [UInt8.ofNat, UInt8.toNat, BitVec.toNat_ofNat, Fin.ofNat]

theorem toNat_shr (a : UInt32) (k : Nat) (hk : k < 32) :
    (a >>> UInt32.ofNat k).toNat = a.toNat >>> k := by
  have h : ((UInt32.ofNat k).mod 32).toBitVec.toNat = k := by
    show (UInt32.ofNat k).toNat % (32 : UInt32).toNat = k
    rw [show (32 : UInt32).toNat = 32 from rfl,
        UInt32.toNat_ofNat_of_lt (by show k < 4294967296; omega)]
    omega
  calc (a >>> UInt32.ofNat k).toNat
      = (a.toBitVec >>> ((UInt32.ofNat k).mod 32).toBitVec.toNat).toNat := rfl
    _ = a.toNat >>> k := by rw [BitVec.toNat_ushiftRight, h]; rfl

theorem uint32_le_iff (a b : UInt32) : a ≤ b ↔ a.toNat ≤ b.toNat := by
  rw [UInt32.le_def, BitVec.le_def]
  exact Iff.rfl

theorem nat_and31 (x : Nat) : x &&& 31 = x % 32 := Nat.and_pow_two_sub_one_eq_mod x 5
theorem nat_and63 (x : Nat) : x &&& 63 = x % 64 := Nat.and_pow_two_sub_one_eq_mod x 6
theorem nat_and15 (x : Nat) : x &&& 15 = x % 16 := Nat.and_pow_two_sub_one_eq_mod x 4
theorem nat_and7 (x : Nat) : x &&& 7 = x % 8 := Nat.and_pow_two_sub_one_eq_mod x 3

theorem nat_lor128 (x : Nat) (h : x < 64) : x ||| 128 = 128 + x := by
  interval_cases x <;> decide
theorem nat_lor192 (x : Nat) (h : x < 32) : x ||| 192 = 192 + x := by
  interval_cases x <;> decide
theorem nat_lor224 (x : Nat) (h : x < 16) : x ||| 224 = 224 + x := by
  interval_cases x <;> decide
theorem nat_lor240 (x : Nat) (h : x < 8) : x ||| 240 = 240 + x := by
  interval_cases x <;> decide

theorem char_toNat_lt (c : Char) : c.val.toNat < 1114112 := by
  rcases c.valid with h | ⟨h1, h2⟩
  · omega
  · exact h2

theorem encodeChar_eq (c : Char) :
    (String.utf8EncodeChar c).map UInt8.toNat =
      (if c.val.toNat ≤ 0x7f then [c.val.toNat]
       else if c.val.toNat ≤ 0x7ff then
         [192 + c.val.toNat / 64, 128 + c.val.toNat % 64]
       else if c.val.toNat ≤ 0xffff then
         [224 + c.val.toNat / 4096, 128 + c.val.toNat / 64 % 64,
          128 + c.val.toNat % 64]
       else
         [240 + c.val.toNat / 262144, 128 + c.val.toNat / 4096 % 64,
          128 + c.val.toNat / 64 % 64, 128 + c.val.toNat % 64]) := by
  have hlt := char_toNat_lt c
  unfold String.utf8EncodeChar
  by_cases h1 : c.val.toNat ≤ 0x7f
  · rw [if_pos ((uint32_le_iff c.val 0x7f).mpr h1), if_pos h1]
    simp only [List.map_cons, List.map_nil, toNat_toUInt8]
    rw [Nat.mod_eq_of_lt (by omega)]
  · rw [if_neg (fun hc => h1 ((uint32_le_iff c.val 0x7f).mp hc)), if_neg h1]
    by_cases h2 : c.val.toNat ≤ 0x7ff
    · rw [if_pos ((uint32_le_iff c.val 0x7ff).mpr h2), if_pos h2]
      simp only [List.map_cons, List.map_nil, uor_toNat, UInt8.and_toNat, toNat_toUInt8]
      rw [show ((0x1f : UInt8)).toNat = 31 from rfl, show ((0xc0 : UInt8)).toNat = 192 from rfl,
          show ((0x3f : UInt8)).toNat = 63 from rfl, show ((0x80 : UInt8)).toNat = 128 from rfl]
      rw [show (6 : UInt32) = UInt32.ofNat 6 from rfl, toNat_shr c.val 6 (by omega)]
      rw [Nat.shiftRight_eq_div_pow]
      rw [nat_and31, nat_and63]
      rw [show c.val.toNat / 2 ^ 6 % 256 % 32 = c.val.toNat / 64 from by omega,
          show c.val.toNat % 256 % 64 = c.val.toNat % 64 from by omega,
          nat_lor192 _ (by omega), nat_lor128 _ (by omega)]
    · rw [if_neg (fun hc => h2 ((uint32_le_iff c.val 0x7ff).mp hc)), if_neg h2]
      by_cases h3 : c.val.toNat ≤ 0xffff
      · rw [if_pos ((uint32_le_iff c.val 0xffff).mpr h3), if_pos h3]
        simp only [List.map_cons, List.map_nil, uor_toNat, UInt8.and_toNat, toNat_toUInt8]
        rw [show ((0x0f : UInt8)).toNat = 15 from rfl, show ((0xe0 : UInt8)).toNat = 224 from rfl,
            show ((0x3f : UInt8)).toNat = 63 from rfl, show ((0x80 : UInt8)).toNat = 128 from rfl]
        rw [show (12 : UInt32) = UInt32.ofNat 12 from rfl, toNat_shr c.val 12 (by omega),
            show (6 : UInt32) = UInt32.ofNat 6 from rfl, toNat_shr c.val 6 (by omega)]
        rw [Nat.shiftRight_eq_div_pow, Nat.shiftRight_eq_div_pow]
        rw [nat_and15, nat_and63, nat_and63]
        rw [show c.val.toNat / 2 ^ 12 % 256 % 16 = c.val.toNat / 4096 from by omega,
            show c.val.toNat / 2 ^ 6 % 256 % 64 = c.val.toNat / 64 % 64 from by omega,
            show c.val.toNat % 256 % 64 = c.val.toNat % 64 from by omega,
            nat_lor224 _ (by omega), nat_lor128 _ (by omega), nat_lor128 _ (by omega)]
      · rw [if_neg (fun hc => h3 ((uint32_le_iff c.val 0xffff).mp hc)), if_neg h3]
        simp only [List.map_cons, List.map_nil, uor_toNat, UInt8.and_toNat, toNat_toUInt8]
        rw [show ((0x07 : UInt8)).toNat = 7 from rfl, show ((0xf0 : UInt8)).toNat = 240 from rfl,
            show ((0x3f : UInt8)).toNat = 63 from rfl, show ((0x80 : UInt8)).toNat = 128 from rfl]
        rw [show (18 : UInt32) = UInt32.ofNat 18 from rfl, toNat_shr c.val 18 (by omega),
            show (12 : UInt32) = UInt32.ofNat 12 from rfl, toNat_shr c.val 12 (by omega),
            show (6 : UInt32) = UInt32.ofNat 6 from rfl, toNat_shr c.val 6 (by omega)]
        rw [Nat.shiftRight_eq_div_pow, Nat.shiftRight_eq_div_pow, Nat.shiftRight_eq_div_pow]
        rw [nat_and7, nat_and63, nat_and63, nat_and63]
        rw [show c.val.toNat / 2 ^ 18 % 256 % 8 = c.val.toNat / 262144 from by omega,
            show c.val.toNat / 2 ^ 12 % 256 % 64 = c.val.toNat / 4096 % 64 from by omega,
            show c.val.toNat / 2 ^ 6 % 256 % 64 = c.val.toNat / 64 % 64 from by omega,
            show c.val.toNat % 256 % 64 = c.val.toNat % 64 from by omega,
            nat_lor240 _ (by omega), nat_lor128 _ (by omega), nat_lor128 _ (by omega),
            nat_lor128 _ (by omega)]

theorem utf8Decode_one (n : Nat) (h : n ≤ 0x7f) (rest : List Nat) :
    utf8Decode (n :: rest) = (utf8Decode rest).map (fun cs => Char.ofNat n :: cs) := by
  match rest with
  | [] =>
    show (if n ≤ 0x7F then _ else _) = _
    rw [if_pos h]
  | [b1] =>
    show (if n ≤ 0x7F then _ else _) = _
    rw [if_pos h]
  | [b1, b2] =>
    show (if n ≤ 0x7F then _ else _) = _
    rw [if_pos h]
  | b1 :: b2 :: b3 :: t =>
    show (if n ≤ 0x7F then _ else _) = _
    rw [if_pos h]

theorem utf8Decode_two (n : Nat) (h1 : 0x80 ≤ n) (h2 : n ≤ 0x7ff) (rest : List Nat) :
    utf8Decode ((192 + n / 64) :: (128 + n % 64) :: rest) =
      (utf8Decode rest).map (fun cs => Char.ofNat n :: cs) := by
  have hb0b : (decide (0xC2 ≤ 192 + n / 64) && decide (192 + n / 64 ≤ 0xDF)) = true := by
    simp only [Bool.and_eq_true, decide_eq_true_eq]
    constructor <;> omega
  have hcont : isCont (128 + n % 64) = true := by
    unfold isCont
    simp only [Bool.and_eq_true, decide_eq_true_eq]
    constructor <;> omega
  have hval : (192 + n / 64 - 0xC0) * 0x40 + (128 + n % 64 - 0x80) = n := by omega
  match rest with
  | [] =>
    show (if 192 + n / 64 ≤ 0x7F then _ else _) = _
    rw [if_neg (by omega)]
    show (if (decide (0xC2 ≤ 192 + n / 64) && decide (192 + n / 64 ≤ 0xDF)) = true
          then _ else _) = _
    rw [if_pos hb0b]
    show (if isCont (128 + n % 64) = true then _ else _) = _
    rw [if_pos hcont, hval]
  | [b1] =>
    show (if 192 + n / 64 ≤ 0x7F then _ else _) = _
    rw [if_neg (by omega)]
    show (if (decide (0xC2 ≤ 192 + n / 64) && decide (192 + n / 64 ≤ 0xDF)) = true
          then _ else _) = _
    rw [if_pos hb0b]
    show (if isCont (128 + n % 64) = true then _ else _) = _
    rw [if_pos hcont, hval]
  | [b1, b2] =>
    show (if 192 + n / 64 ≤ 0x7F then _ else _) = _
    rw [if_neg (by omega)]
    show (if (decide (0xC2 ≤ 192 + n / 64) && decide (192 + n / 64 ≤ 0xDF)) = true
          then _ else _) = _
    rw [if_pos hb0b]
    show (if isCont (128 + n % 64) = true then _ else _) = _
    rw [if_pos hcont, hval]
  | b1 :: b2 :: b3 :: t =>
    show (if 192 + n / 64 ≤ 0x7F then _ else _) = _
    rw [if_neg (by omega)]
    show (if (decide (0xC2 ≤ 192 + n / 64) && decide (192 + n / 64 ≤ 0xDF)) = true
          then _ else _) = _
    rw [if_pos hb0b]
    show (if isCont (128 + n % 64) = true then _ else _) = _
    rw [if_pos hcont, hval]

theorem utf8Decode_three (n : Nat) (h1 : 0x800 ≤ n) (h2 : n ≤ 0xffff)
    (hsur : ¬ (0xd800 ≤ n ∧ n ≤ 0xdfff)) (rest : List Nat) :
    utf8Decode ((224 + n / 4096) :: (128 + n / 64 % 64) :: (128 + n % 64) :: rest) =
      (utf8Decode rest).map (fun cs => Char.ofNat n :: cs) := by
  have hb0b : (decide (0xE0 ≤ 224 + n / 4096) && decide (224 + n / 4096 ≤ 0xEF)) = true := by
    simp only [Bool.and_eq_true, decide_eq_true_eq]
    constructor <;> omega
  have hcond : ((if 224 + n / 4096 = 0xE0 then
                   decide (0xA0 ≤ 128 + n / 64 % 64) && decide (128 + n / 64 % 64 ≤ 0xBF)
                 else if 224 + n / 4096 = 0xED then
                   decide (0x80 ≤ 128 + n / 64 % 64) && decide (128 + n / 64 % 64 ≤ 0x9F)
                 else isCont (128 + n / 64 % 64)) && isCont (128 + n % 64)) = true := by
    have hc2 : isCont (128 + n % 64) = true := by
      unfold isCont
      simp only [Bool.and_eq_true, decide_eq_true_eq]
      constructor <;> omega
    rw [hc2, Bool.and_true]
    by_cases hA : 224 + n / 4096 = 0xE0
    · rw [if_pos hA]
      simp only [Bool.and_eq_true, decide_eq_true_eq]
      constructor <;> omega
    · rw [if_neg hA]
      by_cases hB : 224 + n / 4096 = 0xED
      · rw [if_pos hB]
        simp only [Bool.and_eq_true, decide_eq_true_eq]
        constructor <;> omega
      · rw [if_neg hB]
        unfold isCont
        simp only [Bool.and_eq_true, decide_eq_true_eq]
        constructor <;> omega
  have hval : (224 + n / 4096 - 0xE0) * 0x1000 + (128 + n / 64 % 64 - 0x80) * 0x40 +
      (128 + n % 64 - 0x80) = n := by omega
  rcases rest with _ | ⟨b3, t⟩ <;>
    (show (if 224 + n / 4096 ≤ 0x7F then _ else _) = _
     rw [if_neg (by omega)]
     show (if (decide (0xC2 ≤ 224 + n / 4096) && decide (224 + n / 4096 ≤ 0xDF)) = true
           then _ else _) = _
     rw [if_neg (by simp only [Bool.and_eq_true, decide_eq_true_eq]; omega)]
     show (if (decide (0xE0 ≤ 224 + n / 4096) && decide (224 + n / 4096 ≤ 0xEF)) = true
           then _ else _) = _
     rw [if_pos hb0b]
     show (if ((if 224 + n / 4096 = 0xE0 then
                  decide (0xA0 ≤ 128 + n / 64 % 64) && decide (128 + n / 64 % 64 ≤ 0xBF)
                else if 224 + n / 4096 = 0xED then
                  decide (0x80 ≤ 128 + n / 64 % 64) && decide (128 + n / 64 % 64 ≤ 0x9F)
                else isCont (128 + n / 64 % 64)) && isCont (128 + n % 64)) = true
           then _ else _) = _
     rw [if_pos hcond, hval])

theorem utf8Decode_four (n : Nat) (h1 : 0x10000 ≤ n) (h2 : n ≤ 0x10ffff) (rest : List Nat) :
    utf8Decode ((240 + n / 262144) :: (128 + n / 4096 % 64) :: (128 + n / 64 % 64) ::
        (128 + n % 64) :: rest) =
      (utf8Decode rest).map (fun cs => Char.ofNat n :: cs) := by
  have hb0b : (decide (0xF0 ≤ 240 + n / 262144) && decide (240 + n / 262144 ≤ 0xF4)) = true := by
    simp only [Bool.and_eq_true, decide_eq_true_eq]
    constructor <;> omega
  have hcont2 : isCont (128 + n / 64 % 64) = true := by
    unfold isCont
    simp only [Bool.and_eq_true, decide_eq_true_eq]
    constructor <;> omega
  have hcont3 : isCont (128 + n % 64) = true := by
    unfold isCont
    simp only [Bool.and_eq_true, decide_eq_true_eq]
    constructor <;> omega
  have hcond : ((if 240 + n / 262144 = 0xF0 then
                   decide (0x90 ≤ 128 + n / 4096 % 64) && decide (128 + n / 4096 % 64 ≤ 0xBF)
                 else if 240 + n / 262144 = 0xF4 then
                   decide (0x80 ≤ 128 + n / 4096 % 64) && decide (128 + n / 4096 % 64 ≤ 0x8F)
                 else isCont (128 + n / 4096 % 64)) && isCont (128 + n / 64 % 64) &&
                isCont (128 + n % 64)) = true := by
    rw [hcont2, hcont3, Bool.and_true, Bool.and_true]
    by_cases hA : 240 + n / 262144 = 0xF0
    · rw [if_pos hA]
      simp only [Bool.and_eq_true, decide_eq_true_eq]
      constructor <;> omega
    · rw [if_neg hA]
      by_cases hB : 240 + n / 262144 = 0xF4
      · rw [if_pos hB]
        simp only [Bool.and_eq_true, decide_eq_true_eq]
        constructor <;> omega
      · rw [if_neg hB]
        unfold isCont
        simp only [Bool.and_eq_true, decide_eq_true_eq]
        constructor <;> omega
  have hval : (240 + n / 262144 - 0xF0) * 0x40000 + (128 + n / 4096 % 64 - 0x80) * 0x1000 +
      (128 + n / 64 % 64 - 0x80) * 0x40 + (128 + n % 64 - 0x80) = n := by omega
  show (if 240 + n / 262144 ≤ 0x7F then _ else _) = _
  rw [if_neg (by omega)]
  show (if (decide (0xC2 ≤ 240 + n / 262144) && decide (240 + n / 262144 ≤ 0xDF)) = true
        then _ else _) = _
  rw [if_neg (by simp only [Bool.and_eq_true, decide_eq_true_eq]; omega)]
  show (if (decide (0xE0 ≤ 240 + n / 262144) && decide (240 + n / 262144 ≤ 0xEF)) = true
        then _ else _) = _
  rw [if_neg (by simp only [Bool.and_eq_true, decide_eq_true_eq]; omega)]
  show (if (decide (0xF0 ≤ 240 + n / 262144) && decide (240 + n / 262144 ≤ 0xF4)) = true
        then _ else _) = _
  rw [if_pos hb0b]
  show (if ((if 240 + n / 262144 = 0xF0 then
               decide (0x90 ≤ 128 + n / 4096 % 64) && decide (128 + n / 4096 % 64 ≤ 0xBF)
             else if 240 + n / 262144 = 0xF4 then
               decide (0x80 ≤ 128 + n / 4096 % 64) && decide (128 + n / 4096 % 64 ≤ 0x8F)
             else isCont (128 + n / 4096 % 64)) && isCont (128 + n / 64 % 64) &&
            isCont (128 + n % 64)) = true
        then _ else _) = _
  rw [if_pos hcond, hval]

theorem utf8Decode_encodeChar (c : Char) (rest : List Nat) :
    utf8Decode ((String.utf8EncodeChar c).map UInt8.toNat ++ rest) =
      (utf8Decode rest).map (fun cs => c :: cs) := by
  have hlt := char_toNat_lt c
  have hc : Char.ofNat c.val.toNat = c := Char.ofNat_toNat c
  rw [encodeChar_eq c]
  by_cases h1 : c.val.toNat ≤ 0x7f
  · rw [if_pos h1]
    show utf8Decode (c.val.toNat :: rest) = _
    rw [utf8Decode_one c.val.toNat h1 rest, hc]
  · rw [if_neg h1]
    by_cases h2 : c.val.toNat ≤ 0x7ff
    · rw [if_pos h2]
      show utf8Decode ((192 + c.val.toNat / 64) :: (128 + c.val.toNat % 64) :: rest) = _
      rw [utf8Decode_two c.val.toNat (by omega) h2 rest, hc]
    · rw [if_neg h2]
      by_cases h3 : c.val.toNat ≤ 0xffff
      · rw [if_pos h3]
        show utf8Decode ((224 + c.val.toNat / 4096) :: (128 + c.val.toNat / 64 % 64) ::
            (128 + c.val.toNat % 64) :: rest) = _
        have hsur : ¬ (0xd800 ≤ c.val.toNat ∧ c.val.toNat ≤ 0xdfff) := by
          rcases c.valid with h | ⟨ha, hb⟩
          · omega
          · omega
        rw [utf8Decode_three c.val.toNat (by omega) h3 hsur rest, hc]
      · rw [if_neg h3]
        show utf8Decode ((240 + c.val.toNat / 262144) :: (128 + c.val.toNat / 4096 % 64) ::
            (128 + c.val.toNat / 64 % 64) :: (128 + c.val.toNat % 64) :: rest) = _
        rw [utf8Decode_four c.val.toNat (by omega) (by omega) rest, hc]

theorem utf8Decode_encodeList (cs : List Char) :
    utf8Decode ((cs.flatMap String.utf8EncodeChar).map UInt8.toNat) = some cs := by
  induction cs with
  | nil => rfl
  | cons c t ih =>
    rw [List.flatMap_cons, List.map_append, utf8Decode_encodeChar c, ih]
    rfl

/-- Decoding the UTF-8 encoding of any text recovers exactly that text. -/
theorem utf8Decode_toUTF8 (text : String) :
    utf8Decode (text.toUTF8.data.toList.map UInt8.toNat) = some text.data := by
  have h : text.toUTF8.data.toList = text.data.flatMap String.utf8EncodeChar := rfl
  rw [h, utf8Decode_encodeList]

/-! ## Claim C8 -/

/-- Claim C8: body extraction is total — a UTF-8 body is stored decoded (in
particular the UTF-8 encoding of any text is decoded back to exactly that
text), a non-UTF-8 body is stored as the fixed placeholder noting its byte
length — and a capture of any body against a usable endpoint succeeds as a
normal record carrying exactly that extracted body. -/
theorem c8_body_extraction (bs : List Nat) :
    (∀ cs, utf8Decode bs = some cs → get_request_body bs = String.mk cs) ∧
    (utf8Decode bs = none →
      get_request_body bs = "[Binary data: " ++ toString bs.length ++ " bytes]") ∧
    (∀ (text : String), bs = text.toUTF8.data.toList.map UInt8.toNat →
      get_request_body bs = text) ∧
    (∀ (s : EndpointState) (w : WebhookEndpoint) (raw : RawRequest) (now : Int),
      s.endpoint = some w → w.is_expired now = false →
      raw.method ∈ allowedMethods → raw.bodyBytes = bs →
      (capture s raw now).2 = 200 ∧
      (capture s raw now).1.requests = s.requests ++ [buildRequest raw now] ∧
      (buildRequest raw now).body = get_request_body bs) := by
  refine ⟨?_, ?_, ?_, ?_⟩
  · intro cs h
    unfold get_request_body
    rw [h]
  · intro h
    unfold get_request_body
    rw [h]
  · intro text htext
    subst htext
    unfold get_request_body
    rw [utf8Decode_toUTF8 text]
  · intro s w raw now hep hus hm hbs
    unfold capture
    simp [hm, hep, hus, buildRequest, hbs]

/-- Claim C8, witness: the single byte `0xFF` is not UTF-8; its capture is
accepted and the stored body is the placeholder. -/
theorem c8_body_extraction_witness :
    utf8Decode [255] = none ∧
    get_request_body [255] = "[Binary data: 1 bytes]" ∧
    (capture (initialState { created_at := 0 })
        { method := "POST", bodyBytes := [255] } 0).2 = 200 :=
  ⟨by decide,
   (c8_body_extraction [255]).2.1 (by decide),
   ((c8_body_extraction [255]).2.2.2 (initialState { created_at := 0 })
      { created_at := 0 } { method := "POST", bodyBytes := [255] } 0
      rfl (by decide) (by decide) rfl).1⟩

/-! ## Claim C3 -/

theorem sweepMark_count (now : Int) (w : WebhookEndpoint) :
    (sweepMark now w).current_request_count = w.current_request_count := by
  unfold sweepMark markExpiredByLimit markExpiredByTime
  split_ifs <;> rfl

theorem sweepMark_active (now : Int) (w : WebhookEndpoint)
    (h : (sweepMark now w).status = Status.active) : w.status = Status.active := by
  unfold sweepMark markExpiredByLimit markExpiredByTime at h
  split_ifs at h
  all_goals simp_all

theorem sweepMark_disabled (now : Int) (w : WebhookEndpoint)
    (h : (sweepMark now w).status = Status.disabled) : w.status = Status.disabled := by
  unfold sweepMark markExpiredByLimit markExpiredByTime at h
  split_ifs at h
  all_goals simp_all

theorem sweepMark_nonactive (now : Int) (w : WebhookEndpoint)
    (h : w.status ≠ Status.active) : sweepMark now w = w := by
  unfold sweepMark markExpiredByLimit markExpiredByTime
  simp [h]

/-- Claim C3, counterexample: a capture attempt against a `disabled`
endpoint rewrites the stored status to `expired` (views.py lines 82-84,
middleware.py lines 51-53 assign unconditionally), so a rejection flips the
status even though the stored status was not `active`, and `disabled` is
not a terminal state. -/
theorem c3_counterexample :
    (capture (initialState { created_at := 0, status := Status.disabled })
        { method := "GET" } 0).1.endpoint =
      some { created_at := 0, status := Status.expired } ∧
    (capture (initialState { created_at := 0, status := Status.disabled })
        { method := "GET" } 0).2 = 410 := by
  decide

/-- Result of a capture whose verb is refused by `require_http_methods`. -/
theorem capture_405 (s : EndpointState) (raw : RawRequest) (now : Int)
    (hm : raw.method ∉ allowedMethods) : capture s raw now = (s, 405) := by
  unfold capture
  rw [if_pos hm]

/-- Result of a capture rejected by the usability check. -/
theorem capture_410 (s : EndpointState) (w : WebhookEndpoint) (raw : RawRequest)
    (now : Int) (hm : raw.method ∈ allowedMethods) (hep : s.endpoint = some w)
    (hex : w.is_expired now = true) :
    capture s raw now =
      ({ s with endpoint := some { w with status := Status.expired } }, 410) := by
  unfold capture
  simp [hm, hep, hex]

/-- Result of an accepted capture. -/
theorem capture_200 (s : EndpointState) (w : WebhookEndpoint) (raw : RawRequest)
    (now : Int) (hm : raw.method ∈ allowedMethods) (hep : s.endpoint = some w)
    (hex : w.is_expired now = false) :
    capture s raw now =
      ({ endpoint := some w.increment_request_count
         requests := s.requests ++ [buildRequest raw now]
         analytics := some ((s.analytics.getD {}).update_stats (buildRequest raw now)) },
       200) := by
  unfold capture
  simp [hm, hep, hex]

/-- Result of a sweep on a state holding an endpoint. -/
theorem applyOp_sweep (s : EndpointState) (now : Int) (w : WebhookEndpoint)
    (h : s.endpoint = some w) :
    applyOp s (Op.sweep now) =
      if deleteCondition now (sweepMark now w) = true then
        { endpoint := none, requests := [], analytics := none }
      else { s with endpoint := some (sweepMark now w) } := by
  unfold applyOp
  simp [h]

/-- Claim C3 (amended): every operation (capture, rejection, sweep) leaves
the count non-decreasing; the status never returns to `active`, never
leaves `expired`, and is never set to `disabled` by any operation; a
rejected capture stores status `expired` whatever non-usable state the
endpoint was in — so the only transition the original claim forbade that
the code performs is `disabled` → `expired` on rejection. -/
theorem c3_state_invariants (s : EndpointState) (op : Op) (w w2 : WebhookEndpoint)
    (h : s.endpoint = some w) (h2 : (applyOp s op).endpoint = some w2) :
    w.current_request_count ≤ w2.current_request_count ∧
    (w2.status = Status.active → w.status = Status.active) ∧
    (w.status = Status.expired → w2.status = Status.expired) ∧
    (w2.status = Status.disabled → w.status = Status.disabled) ∧
    (∀ raw now, op = Op.capture raw now → (capture s raw now).2 = 410 →
      w2.status = Status.expired) := by
  cases op with
  | capture raw now =>
    have happ : applyOp s (Op.capture raw now) = (capture s raw now).1 := rfl
    rw [happ] at h2
    by_cases hm : raw.method ∈ allowedMethods
    · by_cases hex : w.is_expired now = true
      · rw [capture_410 s w raw now hm h hex] at h2
        simp only [Option.some.injEq] at h2
        subst h2
        refine ⟨Nat.le_refl _, ?_, ?_, ?_, ?_⟩
        · intro hact
          simp at hact
        · intro hw
          rfl
        · intro hd
          simp at hd
        · intro raw2 now2 heq hcode
          rfl
      · rw [Bool.not_eq_true] at hex
        rw [capture_200 s w raw now hm h hex] at h2
        simp only [Option.some.injEq] at h2
        subst h2
        refine ⟨Nat.le_succ _, ?_, ?_, ?_, ?_⟩
        · intro hact
          unfold WebhookEndpoint.increment_request_count at hact
          by_cases hq : w.current_request_count + 1 ≥ w.max_requests
          · simp [hq] at hact
          · simpa [hq] using hact
        · intro hw
          have ha := ((is_expired_false_iff w now).mp hex).1
          rw [ha] at hw
          exact absurd hw (by simp)
        · intro hd
          unfold WebhookEndpoint.increment_request_count at hd
          by_cases hq : w.current_request_count + 1 ≥ w.max_requests
          · simp [hq] at hd
          · simpa [hq] using hd
        · intro raw2 now2 heq hcode
          injection heq with e1 e2
          subst e1
          subst e2
          rw [capture_200 s w raw now hm h hex] at hcode
          simp at hcode
    · rw [capture_405 s raw now hm] at h2
      simp only at h2
      rw [h] at h2
      simp only [Option.some.injEq] at h2
      subst h2
      refine ⟨Nat.le_refl _, fun hact => hact, fun hw => hw, fun hd => hd, ?_⟩
      intro raw2 now2 heq hcode
      injection heq with e1 e2
      subst e1
      subst e2
      rw [capture_405 s raw now hm] at hcode
      simp at hcode
  | sweep now =>
    rw [applyOp_sweep s now w h] at h2
    by_cases hdel : deleteCondition now (sweepMark now w) = true
    · rw [if_pos hdel] at h2
      simp at h2
    · rw [if_neg hdel] at h2
      simp only [Option.some.injEq] at h2
      subst h2
      refine ⟨Nat.le_of_eq (sweepMark_count now w).symm, sweepMark_active now w, ?_,
        sweepMark_disabled now w, fun raw2 now2 heq _ => Op.noConfusion heq⟩
      intro hw
      have hne : w.status ≠ Status.active := by
        rw [hw]
        simp
      rw [sweepMark_nonactive now w hne]
      exact hw

/-- Claim C3, witness: the amended invariants at a concrete sweep that
keeps a fresh endpoint unchanged. -/
theorem c3_state_invariants_witness :
    ({ created_at := 0 } : WebhookEndpoint).current_request_count ≤
      ({ created_at := 0 } : WebhookEndpoint).current_request_count :=
  (c3_state_invariants (initialState { created_at := 0 }) (Op.sweep 0)
    { created_at := 0 } { created_at := 0 } rfl (by decide)).1

/-! ## Claim C6 -/

theorem deleteCondition_iff (now : Int) (w : WebhookEndpoint) :
    deleteCondition now w =
      (decide (w.status ≠ Status.active) &&
       decide (w.created_at < now - 7 * dayMinutes) &&
       decide (w.created_at < now - (w.auto_delete_after_days : Int) * dayMinutes)) := by
  unfold deleteCondition WebhookEndpoint.should_auto_delete
  rw [Bool.eq_iff_iff]
  cases hs : w.status <;> simp [hs]

/-- Claim C6, counterexample: an `expired` endpoint 3 days old with an
auto-delete horizon of 2 days meets the claim's deletion conditions
(non-active, age > own horizon) yet survives the sweep, because the
deletion queryset first applies a hard-coded 7-day cutoff (tasks.py line
111). -/
theorem c6_counterexample :
    cleanup_expired_webhooks
        [{ created_at := 7 * dayMinutes, status := Status.expired,
           auto_delete_after_days := 2 }] (10 * dayMinutes) =
      [{ created_at := 7 * dayMinutes, status := Status.expired,
         auto_delete_after_days := 2 }] ∧
    ({ created_at := 7 * dayMinutes, status := Status.expired,
       auto_delete_after_days := 2 } : WebhookEndpoint).should_auto_delete
        (10 * dayMinutes) = true := by
  decide

/-- Claim C6 (amended): one sweep run (1) transitions every active endpoint
whose expiry has passed or whose count reached its quota to `expired`,
(2) deletes exactly those endpoints whose post-marking status is non-active
AND whose age exceeds both the hard-coded 7-day retention floor and their
own auto-delete horizon (an endpoint younger than 7 days is retained even
when its own horizon has passed), and (3) deleting an endpoint cascades:
its captured request rows (and analytics row) are deleted with it. -/
theorem c6_sweep_amended (store : List WebhookEndpoint) (now : Int) :
    (∀ w : WebhookEndpoint, w.status = Status.active →
      ((∃ e, w.expires_at = some e ∧ e < now) ∨
        w.max_requests ≤ w.current_request_count) →
      (sweepMark now w).status = Status.expired) ∧
    cleanup_expired_webhooks store now =
      (store.map (sweepMark now)).filter (fun w =>
        !(decide (w.status ≠ Status.active) &&
          decide (w.created_at < now - 7 * dayMinutes) &&
          decide (w.created_at < now - (w.auto_delete_after_days : Int) * dayMinutes))) ∧
    (∀ (s : EndpointState) (w : WebhookEndpoint) (tDel : Int),
      s.endpoint = some w → deleteCondition tDel (sweepMark tDel w) = true →
      applyOp s (Op.sweep tDel) =
        { endpoint := none, requests := [], analytics := none }) := by
  refine ⟨?_, ?_, ?_⟩
  · intro w hact hcond
    unfold sweepMark markExpiredByTime markExpiredByLimit
    rcases hcond with ⟨e, he, hlt⟩ | hq
    · simp [hact, he, hlt]
    · split_ifs <;> simp_all
  · simp only [cleanup_expired_webhooks]
    rw [List.map_map]
    refine List.filter_congr ?_
    intro x _
    rw [deleteCondition_iff]
  · intro s w tDel hep hdel
    rw [applyOp_sweep s tDel w hep, if_pos hdel]

/-- Claim C6, witness: the marking part at a concrete endpoint whose expiry
has passed, and the cascading deletion of a stored request row together
with its deletable endpoint. -/
theorem c6_sweep_amended_witness :
    (sweepMark 10 { created_at := 0, expires_at := some 5 }).status = Status.expired ∧
    applyOp
      { endpoint := some { created_at := 0, status := Status.expired }
        requests := [{ method := "GET", received_at := 1 }]
        analytics := some {} }
      (Op.sweep (20 * dayMinutes)) =
      { endpoint := none, requests := [], analytics := none } :=
  ⟨(c6_sweep_amended [] 10).1 { created_at := 0, expires_at := some 5 } rfl
    (Or.inl ⟨5, rfl, by decide⟩),
   (c6_sweep_amended [] 10).2.2
     { endpoint := some { created_at := 0, status := Status.expired }
       requests := [{ method := "GET", received_at := 1 }]
       analytics := some {} }
     { created_at := 0, status := Status.expired } (20 * dayMinutes) rfl (by decide)⟩

/-! ## Claim C4 -/

theorem capture_404 (s : EndpointState) (raw : RawRequest) (now : Int)
    (hm : raw.method ∈ allowedMethods) (hep : s.endpoint = none) :
    capture s raw now = (s, 404) := by
  unfold capture
  simp [hm, hep]

theorem applyOp_sweep_none (s : EndpointState) (now : Int)
    (hep : s.endpoint = none) : applyOp s (Op.sweep now) = s := by
  unfold applyOp
  simp [hep]

theorem bumpContentType_total (x : WebhookAnalytics) (ct : String) :
    (x.bumpContentType ct).total_requests = x.total_requests := by
  unfold WebhookAnalytics.bumpContentType
  split_ifs <;> rfl

theorem bumpMethod_total (x : WebhookAnalytics) (m : String)
    (hm : m ∈ allowedMethods) :
    (x.bumpMethod m).total_requests = x.total_requests := by
  fin_cases hm <;> rfl

theorem update_stats_total (a : WebhookAnalytics) (r : WebhookRequest)
    (hm : r.method ∈ allowedMethods) :
    (a.update_stats r).total_requests = a.total_requests + 1 := by
  simp only [WebhookAnalytics.update_stats]
  rw [bumpContentType_total, bumpMethod_total _ _ hm]

/-- Claim C4, counterexample: the analytics update is not serialized — it
is `get_or_create` followed by `update_stats`'s in-memory
`total_requests += 1` and a full `save()` of the stale snapshot
(middleware.py lines 75-79, models.py lines 190-223), with no locking.
Two concurrent accepted captures that both read the analytics row before
either writes it back lose one increment: the final, fully quiescent state
(both captures finished with HTTP 200) holds 2 stored request rows but
`total_requests = 1`, so the claimed snapshot equality is false of the
program. -/
theorem c4_counterexample :
    (anaSchedRun 0 (initialAnaConc { created_at := 0 }
        [{ method := "GET" }, { method := "GET" }])
      [0, 0, 0, 0, 0, 0, 0, 1, 1, 1, 1, 1, 1, 1, 0, 1]).db.rows.length = 2 ∧
    anaTotal (anaSchedRun 0 (initialAnaConc { created_at := 0 }
        [{ method := "GET" }, { method := "GET" }])
      [0, 0, 0, 0, 0, 0, 0, 1, 1, 1, 1, 1, 1, 1, 0, 1]) = 1 ∧
    (anaSchedRun 0 (initialAnaConc { created_at := 0 }
        [{ method := "GET" }, { method := "GET" }])
      [0, 0, 0, 0, 0, 0, 0, 1, 1, 1, 1, 1, 1, 1, 0, 1]).procs.map Prod.snd =
      [AnaPhase.finished 200, AnaPhase.finished 200] := by
  decide

/-- Claim C4 (amended): in any sequential execution — no overlapping
captures — an accepted capture creates exactly one request row and bumps
`total_requests` by exactly one, and across any sequence of operations
(captures, rejections, sweeps — sweeps cascade-delete the rows and the
analytics row together) `total_requests` equals the number of stored
request rows; under concurrent captures the stale analytics
read-modify-write can lose increments, so the equality is only guaranteed
sequentially. -/
theorem c4_analytics_consistency :
    (∀ (s : EndpointState) (raw : RawRequest) (now : Int),
      (capture s raw now).2 = 200 →
      analyticsTotal (capture s raw now).1 = analyticsTotal s + 1 ∧
      (capture s raw now).1.requests.length = s.requests.length + 1) ∧
    (∀ (w : WebhookEndpoint) (ops : List Op),
      analyticsTotal (runOps (initialState w) ops) =
        (runOps (initialState w) ops).requests.length) := by
  have hacc : ∀ (s : EndpointState) (raw : RawRequest) (now : Int),
      (capture s raw now).2 = 200 →
      analyticsTotal (capture s raw now).1 = analyticsTotal s + 1 ∧
      (capture s raw now).1.requests.length = s.requests.length + 1 := by
    intro s raw now hcode
    by_cases hm : raw.method ∈ allowedMethods
    · cases hep : s.endpoint with
      | none =>
        rw [capture_404 s raw now hm hep] at hcode
        simp at hcode
      | some w =>
        by_cases hex : w.is_expired now = true
        · rw [capture_410 s w raw now hm hep hex] at hcode
          simp at hcode
        · rw [Bool.not_eq_true] at hex
          rw [capture_200 s w raw now hm hep hex]
          constructor
          · show ((s.analytics.getD {}).update_stats (buildRequest raw now)).total_requests =
              analyticsTotal s + 1
            rw [update_stats_total _ _ hm]
            cases han : s.analytics with
            | none => simp [analyticsTotal, han]
            | some a => simp [analyticsTotal, han]
          · show (s.requests ++ [buildRequest raw now]).length = s.requests.length + 1
            rw [List.length_append]
            rfl
    · rw [capture_405 s raw now hm] at hcode
      simp at hcode
  refine ⟨hacc, ?_⟩
  intro w ops
  have step : ∀ (s : EndpointState) (op : Op),
      analyticsTotal s = s.requests.length →
      analyticsTotal (applyOp s op) = (applyOp s op).requests.length := by
    intro s op hinv
    cases op with
    | capture raw now =>
      have happ : applyOp s (Op.capture raw now) = (capture s raw now).1 := rfl
      rw [happ]
      by_cases hcode : (capture s raw now).2 = 200
      · obtain ⟨h1, h2⟩ := hacc s raw now hcode
        rw [h1, h2, hinv]
      · by_cases hm : raw.method ∈ allowedMethods
        · cases hep : s.endpoint with
          | none => rw [capture_404 s raw now hm hep]; exact hinv
          | some v =>
            by_cases hex : v.is_expired now = true
            · rw [capture_410 s v raw now hm hep hex]
              exact hinv
            · rw [Bool.not_eq_true] at hex
              exact absurd (by rw [capture_200 s v raw now hm hep hex]) hcode
        · rw [capture_405 s raw now hm]
          exact hinv
    | sweep now =>
      cases hep : s.endpoint with
      | none => rw [applyOp_sweep_none s now hep]; exact hinv
      | some v =>
        rw [applyOp_sweep s now v hep]
        by_cases hdel : deleteCondition now (sweepMark now v) = true
        · rw [if_pos hdel]
          rfl
        · rw [if_neg hdel]
          exact hinv
  have hrun : ∀ (s : EndpointState), analyticsTotal s = s.requests.length →
      analyticsTotal (runOps s ops) = (runOps s ops).requests.length := by
    induction ops with
    | nil => intro s h; exact h
    | cons op rest ih => intro s h; exact ih _ (step s op h)
  exact hrun (initialState w) rfl

/-- Claim C4, witness: a concrete accepted capture bumps both quantities by
one. -/
theorem c4_analytics_consistency_witness :
    analyticsTotal (capture (initialState { created_at := 0 }) { method := "GET" } 0).1 =
      analyticsTotal (initialState { created_at := 0 }) + 1 :=
  (c4_analytics_consistency.1 (initialState { created_at := 0 })
    { method := "GET" } 0 (by decide)).1

/-! ## Claim C1 -/

theorem is_expired_false_count (w : WebhookEndpoint) (now : Int)
    (h : w.is_expired now = false) :
    w.current_request_count < w.max_requests :=
  ((is_expired_false_iff w now).mp h).2.2

theorem capStep_viewCheck_expired (now : Int) (db : DBState)
    (snap : WebhookEndpoint) (hex : snap.is_expired now = true) :
    capStep now db (CapPhase.viewCheck snap) =
      ({ db with ep := { snap with status := Status.expired } },
       CapPhase.midFetchR) := by
  simp only [capStep]
  rw [if_pos hex]

theorem capStep_viewCheck_live (now : Int) (db : DBState)
    (snap : WebhookEndpoint) (hex : snap.is_expired now = false) :
    capStep now db (CapPhase.viewCheck snap) = (db, CapPhase.midFetch snap) := by
  simp only [capStep]
  rw [if_neg (by rw [hex]; exact Bool.false_ne_true)]

theorem capStep_midCheck_expired (now : Int) (db : DBState)
    (snap : WebhookEndpoint) (hex : snap.is_expired now = true) :
    capStep now db (CapPhase.midCheck snap) =
      ({ db with ep := { snap with status := Status.expired } },
       CapPhase.finished 410 false) := by
  simp only [capStep]
  rw [if_pos hex]

theorem capStep_midCheck_live (now : Int) (db : DBState)
    (snap : WebhookEndpoint) (hex : snap.is_expired now = false) :
    capStep now db (CapPhase.midCheck snap) = (db, CapPhase.insertRow snap) := by
  simp only [capStep]
  rw [if_neg (by rw [hex]; exact Bool.false_ne_true)]

theorem capStep_midCheckR_expired (now : Int) (db : DBState)
    (snap : WebhookEndpoint) (hex : snap.is_expired now = true) :
    capStep now db (CapPhase.midCheckR snap) =
      ({ db with ep := { snap with status := Status.expired } },
       CapPhase.finished 410 false) := by
  simp only [capStep]
  rw [if_pos hex]

theorem capStep_midCheckR_live (now : Int) (db : DBState)
    (snap : WebhookEndpoint) (hex : snap.is_expired now = false) :
    capStep now db (CapPhase.midCheckR snap) = (db, CapPhase.insertRowR snap) := by
  simp only [capStep]
  rw [if_neg (by rw [hex]; exact Bool.false_ne_true)]

theorem schedStep_stuck_none (now : Int) (s : ConcState) (i : Nat)
    (hget : s.procs.get? i = none) : schedStep now s i = s := by
  unfold schedStep
  rw [hget]

theorem schedStep_stuck_fin (now : Int) (s : ConcState) (i : Nat) (c : Nat)
    (b : Bool) (hget : s.procs.get? i = some (CapPhase.finished c b)) :
    schedStep now s i = s := by
  unfold schedStep
  rw [hget]

theorem schedStep_active (now : Int) (s : ConcState) (i : Nat) (p : CapPhase)
    (hget : s.procs.get? i = some p)
    (hnf : ∀ c b, p ≠ CapPhase.finished c b) :
    schedStep now s i =
      { db := (capStep now s.db p).1, procs := s.procs.set i (capStep now s.db p).2 } := by
  unfold schedStep
  rw [hget]
  cases p with
  | viewFetch => rfl
  | viewCheck snap => rfl
  | midFetch snap => rfl
  | midCheck snap => rfl
  | insertRow snap => rfl
  | writeCount snap => rfl
  | midFetchR => rfl
  | midCheckR snap => rfl
  | insertRowR snap => rfl
  | writeCountR snap => rfl
  | finished c b => exact absurd rfl (hnf c b)

/-- One scheduler step preserves quota-consistency. -/
theorem concOk_step (M : Nat) (now : Int) (s : ConcState) (i : Nat)
    (h : ConcOk M s) : ConcOk M (schedStep now s i) := by
  obtain ⟨hdb, hprocs⟩ := h
  cases hget : s.procs.get? i with
  | none =>
    rw [schedStep_stuck_none now s i hget]
    exact ⟨hdb, hprocs⟩
  | some p =>
    have hp : PhaseOk M p := hprocs p (List.get?_mem hget)
    cases p with
    | finished code pushed =>
      rw [schedStep_stuck_fin now s i code pushed hget]
      exact ⟨hdb, hprocs⟩
    | viewFetch =>
      rw [schedStep_active now s i CapPhase.viewFetch hget
        (fun c b hc => CapPhase.noConfusion hc)]
      refine ⟨hdb, fun q hq => ?_⟩
      rcases List.mem_or_eq_of_mem_set hq with h1 | rfl
      · exact hprocs q h1
      · exact hdb
    | viewCheck snap =>
      rw [schedStep_active now s i (CapPhase.viewCheck snap) hget
        (fun c b hc => CapPhase.noConfusion hc)]
      cases hex : snap.is_expired now with
      | true =>
        rw [capStep_viewCheck_expired now s.db snap hex]
        refine ⟨⟨hp.1, hp.2⟩, fun q hq => ?_⟩
        rcases List.mem_or_eq_of_mem_set hq with h1 | rfl
        · exact hprocs q h1
        · exact trivial
      | false =>
        rw [capStep_viewCheck_live now s.db snap hex]
        refine ⟨hdb, fun q hq => ?_⟩
        rcases List.mem_or_eq_of_mem_set hq with h1 | rfl
        · exact hprocs q h1
        · exact hp
    | midFetch snap =>
      rw [schedStep_active now s i (CapPhase.midFetch snap) hget
        (fun c b hc => CapPhase.noConfusion hc)]
      refine ⟨hdb, fun q hq => ?_⟩
      rcases List.mem_or_eq_of_mem_set hq with h1 | rfl
      · exact hprocs q h1
      · exact hdb
    | midCheck snap =>
      rw [schedStep_active now s i (CapPhase.midCheck snap) hget
        (fun c b hc => CapPhase.noConfusion hc)]
      cases hex : snap.is_expired now with
      | true =>
        rw [capStep_midCheck_expired now s.db snap hex]
        refine ⟨⟨hp.1, hp.2⟩, fun q hq => ?_⟩
        rcases List.mem_or_eq_of_mem_set hq with h1 | rfl
        · exact hprocs q h1
        · exact trivial
      | false =>
        rw [capStep_midCheck_live now s.db snap hex]
        refine ⟨hdb, fun q hq => ?_⟩
        rcases List.mem_or_eq_of_mem_set hq with h1 | rfl
        · exact hprocs q h1
        · exact ⟨hp.1, hp.1 ▸ is_expired_false_count snap now hex⟩
    | insertRow snap =>
      rw [schedStep_active now s i (CapPhase.insertRow snap) hget
        (fun c b hc => CapPhase.noConfusion hc)]
      refine ⟨hdb, fun q hq => ?_⟩
      rcases List.mem_or_eq_of_mem_set hq with h1 | rfl
      · exact hprocs q h1
      · exact hp
    | writeCount snap =>
      rw [schedStep_active now s i (CapPhase.writeCount snap) hget
        (fun c b hc => CapPhase.noConfusion hc)]
      refine ⟨⟨hdb.1, ?_⟩, fun q hq => ?_⟩
      · show snap.current_request_count + 1 ≤ M
        have h2 := hp.2
        omega
      · rcases List.mem_or_eq_of_mem_set hq with h1 | rfl
        · exact hprocs q h1
        · exact trivial
    | midFetchR =>
      rw [schedStep_active now s i CapPhase.midFetchR hget
        (fun c b hc => CapPhase.noConfusion hc)]
      refine ⟨hdb, fun q hq => ?_⟩
      rcases List.mem_or_eq_of_mem_set hq with h1 | rfl
      · exact hprocs q h1
      · exact hdb
    | midCheckR snap =>
      rw [schedStep_active now s i (CapPhase.midCheckR snap) hget
        (fun c b hc => CapPhase.noConfusion hc)]
      cases hex : snap.is_expired now with
      | true =>
        rw [capStep_midCheckR_expired now s.db snap hex]
        refine ⟨⟨hp.1, hp.2⟩, fun q hq => ?_⟩
        rcases List.mem_or_eq_of_mem_set hq with h1 | rfl
        · exact hprocs q h1
        · exact trivial
      | false =>
        rw [capStep_midCheckR_live now s.db snap hex]
        refine ⟨hdb, fun q hq => ?_⟩
        rcases List.mem_or_eq_of_mem_set hq with h1 | rfl
        · exact hprocs q h1
        · exact ⟨hp.1, hp.1 ▸ is_expired_false_count snap now hex⟩
    | insertRowR snap =>
      rw [schedStep_active now s i (CapPhase.insertRowR snap) hget
        (fun c b hc => CapPhase.noConfusion hc)]
      refine ⟨hdb, fun q hq => ?_⟩
      rcases List.mem_or_eq_of_mem_set hq with h1 | rfl
      · exact hprocs q h1
      · exact hp
    | writeCountR snap =>
      rw [schedStep_active now s i (CapPhase.writeCountR snap) hget
        (fun c b hc => CapPhase.noConfusion hc)]
      refine ⟨⟨hdb.1, ?_⟩, fun q hq => ?_⟩
      · show snap.current_request_count + 1 ≤ M
        have h2 := hp.2
        omega
      · rcases List.mem_or_eq_of_mem_set hq with h1 | rfl
        · exact hprocs q h1
        · exact trivial

/-- Running any schedule preserves quota-consistency. -/
theorem concOk_run (M : Nat) (now : Int) (sched : List Nat) :
    ∀ (s : ConcState), ConcOk M s → ConcOk M (schedRun now s sched) := by
  induction sched with
  | nil => exact fun s h => h
  | cons i rest ih => exact fun s h => ih _ (concOk_step M now s i h)

/-- Claim C1, counterexample: with quota 1 and two concurrent captures, the
interleaving that runs both captures up to their row inserts before either
count-write executes ends with BOTH captures accepted (two pushers flipping
the status at quota), 2 rows stored, and the count at 1 — the
read-modify-write of `increment_request_count` is not atomic, so it is not
true that at most one concurrent capture pushes the count to the quota. -/
theorem c1_counterexample :
    acceptedCount (schedRun 0
      (initialConc { created_at := 0, expires_at := some 100, max_requests := 1 } 2)
      [0, 0, 0, 0, 0, 1, 1, 1, 1, 1, 0, 1]) = 2 ∧
    pusherCount (schedRun 0
      (initialConc { created_at := 0, expires_at := some 100, max_requests := 1 } 2)
      [0, 0, 0, 0, 0, 1, 1, 1, 1, 1, 0, 1]) = 2 ∧
    (schedRun 0
      (initialConc { created_at := 0, expires_at := some 100, max_requests := 1 } 2)
      [0, 0, 0, 0, 0, 1, 1, 1, 1, 1, 0, 1]).db.rowCount = 2 ∧
    (schedRun 0
      (initialConc { created_at := 0, expires_at := some 100, max_requests := 1 } 2)
      [0, 0, 0, 0, 0, 1, 1, 1, 1, 1, 0, 1]).db.ep.current_request_count = 1 ∧
    ({ created_at := 0, expires_at := some 100, max_requests := 1 } :
      WebhookEndpoint).max_requests = 1 := by
  decide

/-- Claim C1 (amended): under every interleaving of any number of
concurrent captures, `current_request_count` never exceeds `max_requests`
(every count-write stores `snapshot.count + 1` for a snapshot that passed
the under-quota check, and every rejection write re-stores a snapshot
count); the increment is however not a single atomic read-modify-write, and
two concurrent captures may both be accepted as the one that pushes the
count to the quota. -/
theorem c1_count_bounded (w : WebhookEndpoint) (n : Nat) (now : Int)
    (sched : List Nat) (h : w.current_request_count ≤ w.max_requests) :
    (schedRun now (initialConc w n) sched).db.ep.current_request_count ≤
      (schedRun now (initialConc w n) sched).db.ep.max_requests := by
  have hok : ConcOk w.max_requests (initialConc w n) := by
    refine ⟨⟨rfl, h⟩, fun p hp => ?_⟩
    rw [List.eq_of_mem_replicate hp]
    exact trivial
  have hfin := concOk_run w.max_requests now sched (initialConc w n) hok
  rw [hfin.1.1]
  exact hfin.1.2

/-- Claim C1, witness: the amended bound at a concrete two-capture
schedule. -/
theorem c1_count_bounded_witness :
    (schedRun 0 (initialConc { created_at := 0 } 2)
      [0, 1, 0, 1, 0, 1, 0, 1, 0, 1]).db.ep.current_request_count ≤
    (schedRun 0 (initialConc { created_at := 0 } 2)
      [0, 1, 0, 1, 0, 1, 0, 1, 0, 1]).db.ep.max_requests :=
  c1_count_bounded { created_at := 0 } 2 0 [0, 1, 0, 1, 0, 1, 0, 1, 0, 1]
    (by decide)

end WebhookInspector
